import Mathlib

/-! myahrs_driver: the sample converter and the device session initialiser

A shallow embedding of `src/myahrs_driver.cpp`.

* Scalars.  The C++ `double` and `float` values are embedded in an exact field `α`
  (instantiated with `ℝ` for the numerical statements); rounding is not modelled.
  `M_PI`, `sin` and `cos` come from `<cmath>` and are passed in as a `CMath α`
  record, so that every definition stays executable (for instance over `ℚ`).
* Effects.  `publish` on the two publishers and `sendTransform` on the broadcaster
  append to lists kept in the driver record; `printf` appends to `stdout`;
  the two calls of `ros::Time::now()` are the two clock readings handed to
  `publish_topic`.
* The mutex (`LockGuard`) is not modelled: the embedding is sequential.
-/

/-! ## Types of the collaborating libraries -/

namespace ros

/-- A `ros::Time` value. -/
structure Time where
  sec : Nat
  nsec : Nat
  deriving DecidableEq, Repr

end ros

namespace WithRobot

/-- The `euler_angle` member of `SensorData` (degrees). -/
structure EulerAngle (α : Type) where
  roll : α
  pitch : α
  yaw : α
  deriving DecidableEq, Repr

/-- The members of `ImuData<float>` that `publish_topic` reads
(accelerometer in g, gyroscope in degrees per second, magnetometer in microtesla). -/
structure ImuData (α : Type) where
  ax : α
  ay : α
  az : α
  gx : α
  gy : α
  gz : α
  mx : α
  my : α
  mz : α
  deriving DecidableEq, Repr

/-- The members of `SensorData` that `publish_topic` reads.  The type is declared in
`myahrs_plus.hpp`, which is not among the sources; its remaining members are never read. -/
structure SensorData (α : Type) where
  euler_angle : EulerAngle α
  imu : ImuData α
  deriving DecidableEq, Repr

end WithRobot

/-- The `<cmath>` facilities the conversion relies on. -/
structure CMath (α : Type) where
  M_PI : α
  sin : α → α
  cos : α → α

namespace tf

/-- A `tf::Quaternion`; index `0..3` is `x, y, z, w`. -/
structure Quaternion (α : Type) where
  x : α
  y : α
  z : α
  w : α
  deriving DecidableEq, Repr

/-- The subscript operator of `tf::Quaternion`. -/
def Quaternion.index {α : Type} (q : Quaternion α) : Nat → α
  | 0 => q.x
  | 1 => q.y
  | 2 => q.z
  | _ => q.w

/-- A `tf::Vector3`. -/
structure Vector3 (α : Type) where
  x : α
  y : α
  z : α
  deriving DecidableEq, Repr

/-- A `tf::Transform`, recorded by the two arguments of its constructor. -/
structure Transform (α : Type) where
  rotation : Quaternion α
  origin : Vector3 α
  deriving DecidableEq, Repr

/-- A `tf::StampedTransform(input, timestamp, frame_id, child_frame_id)`:
`frame_id_` names the parent frame, `child_frame_id_` the child frame. -/
structure StampedTransform (α : Type) extends Transform α where
  stamp_ : ros.Time
  frame_id_ : String
  child_frame_id_ : String
  deriving DecidableEq, Repr

/-- Modelled from the spec: `tf::createQuaternionFromRPY` belongs to the ROS tf library,
which is not part of the repository; the spec (4.3, 8) calls it the standard
Euler-to-quaternion transform.  The components are the half-angle products of that
transform for roll about x, pitch about y and yaw about z. -/
def createQuaternionFromRPY {α : Type} [Field α] (cm : CMath α) (roll pitch yaw : α) :
    Quaternion α :=
  let halfYaw := yaw * 0.5
  let halfPitch := pitch * 0.5
  let halfRoll := roll * 0.5
  let cosYaw := cm.cos halfYaw
  let sinYaw := cm.sin halfYaw
  let cosPitch := cm.cos halfPitch
  let sinPitch := cm.sin halfPitch
  let cosRoll := cm.cos halfRoll
  let sinRoll := cm.sin halfRoll
  { x := sinRoll * cosPitch * cosYaw - cosRoll * sinPitch * sinYaw
    y := cosRoll * sinPitch * cosYaw + sinRoll * cosPitch * sinYaw
    z := cosRoll * cosPitch * sinYaw - sinRoll * sinPitch * cosYaw
    w := cosRoll * cosPitch * cosYaw + sinRoll * sinPitch * sinYaw }

end tf

namespace std_msgs

/-- A `std_msgs/Header`. -/
structure Header where
  seq : Nat
  stamp : ros.Time
  frame_id : String
  deriving DecidableEq, Repr

/-- A default-constructed header. -/
def Header.new : Header := { seq := 0, stamp := ⟨0, 0⟩, frame_id := "" }

end std_msgs

namespace geometry_msgs

/-- A `geometry_msgs/Quaternion`. -/
structure Quaternion (α : Type) where
  x : α
  y : α
  z : α
  w : α
  deriving DecidableEq, Repr

/-- A `geometry_msgs/Vector3`. -/
structure Vector3 (α : Type) where
  x : α
  y : α
  z : α
  deriving DecidableEq, Repr

end geometry_msgs

namespace sensor_msgs

/-- A `sensor_msgs/Imu`. -/
structure Imu (α : Type) where
  header : std_msgs.Header
  orientation : geometry_msgs.Quaternion α
  orientation_covariance : List α
  angular_velocity : geometry_msgs.Vector3 α
  angular_velocity_covariance : List α
  linear_acceleration : geometry_msgs.Vector3 α
  linear_acceleration_covariance : List α
  deriving DecidableEq, Repr

/-- A default-constructed `sensor_msgs::Imu`: every number is zero. -/
def Imu.new {α : Type} [Zero α] : Imu α :=
  { header := std_msgs.Header.new
    orientation := ⟨0, 0, 0, 0⟩
    orientation_covariance := List.replicate 9 0
    angular_velocity := ⟨0, 0, 0⟩
    angular_velocity_covariance := List.replicate 9 0
    linear_acceleration := ⟨0, 0, 0⟩
    linear_acceleration_covariance := List.replicate 9 0 }

/-- A `sensor_msgs/MagneticField`. -/
structure MagneticField (α : Type) where
  header : std_msgs.Header
  magnetic_field : geometry_msgs.Vector3 α
  magnetic_field_covariance : List α
  deriving DecidableEq, Repr

/-- A default-constructed `sensor_msgs::MagneticField`: every number is zero. -/
def MagneticField.new {α : Type} [Zero α] : MagneticField α :=
  { header := std_msgs.Header.new
    magnetic_field := ⟨0, 0, 0⟩
    magnetic_field_covariance := List.replicate 9 0 }

end sensor_msgs

/-! ## The driver -/

/-- The private parameter store read by the constructor: `none` is an absent option. -/
structure ParamStore (α : Type) where
  port : Option String
  baud : Option Int
  frame_id : Option String
  autocalibrate : Option Bool
  linear_acceleration_stddev : Option α
  angular_velocity_stddev : Option α
  magnetic_field_stddev : Option α
  orientation_stddev : Option α

/-- The `param(name, variable, default)` call of the node handle. -/
def ParamStore.param {β : Type} (stored : Option β) (dflt : β) : β :=
  match stored with
  | some v => v
  | none => dflt

/-- The data members of `MyAhrsDriverForROS`.  The two publishers and the transform
broadcaster are recorded by what has been handed to them so far, oldest first. -/
structure MyAhrsDriverForROS (α : Type) where
  frame_id_ : String
  autocalibrate_ : Bool
  linear_acceleration_stddev_ : α
  angular_velocity_stddev_ : α
  magnetic_field_stddev_ : α
  orientation_stddev_ : α
  imu_data_pub_ : List (sensor_msgs.Imu α)
  imu_mag_pub_ : List (sensor_msgs.MagneticField α)
  sensor_data_ : WithRobot.SensorData α
  broadcaster_ : List (tf.StampedTransform α)
  port_ : String
  baud_rate_ : Int
  stdout : String

namespace MyAhrsDriverForROS

/-- The constructor: every option is loaded with its default; `sensor_data_0` is the
default-constructed sample of the SDK. -/
def new {α : Type} [Zero α] (params : ParamStore α) (sensor_data_0 : WithRobot.SensorData α) :
    MyAhrsDriverForROS α :=
  { port_ := ParamStore.param params.port "/dev/ttyACM0"
    baud_rate_ := ParamStore.param params.baud 115200
    frame_id_ := ParamStore.param params.frame_id "imu_link"
    autocalibrate_ := ParamStore.param params.autocalibrate false
    linear_acceleration_stddev_ := ParamStore.param params.linear_acceleration_stddev 0
    angular_velocity_stddev_ := ParamStore.param params.angular_velocity_stddev 0
    magnetic_field_stddev_ := ParamStore.param params.magnetic_field_stddev 0
    orientation_stddev_ := ParamStore.param params.orientation_stddev 0
    imu_data_pub_ := []
    imu_mag_pub_ := []
    sensor_data_ := sensor_data_0
    broadcaster_ := []
    stdout := "" }

/-- The constant `static double convertor_g2a = 9.80665`. -/
def convertor_g2a {α : Type} [Field α] : α := 9.80665

/-- The constant `static double convertor_d2r = M_PI/180.0`. -/
def convertor_d2r {α : Type} [Field α] (cm : CMath α) : α := cm.M_PI / 180.0

/-- The constant `static double convertor_r2d = 180.0/M_PI` (never used). -/
def convertor_r2d {α : Type} [Field α] (cm : CMath α) : α := 180.0 / cm.M_PI

/-- The constant `static double convertor_ut2t = 1/1000000`: both operands are `int`
literals, so the quotient is the truncating integer division, converted afterwards. -/
def convertor_ut2t {α : Type} [Field α] : α := ((Int.tdiv 1 1000000 : Int) : α)

/-- The constant `static double convertor_c = 1` (never used). -/
def convertor_c {α : Type} [Field α] : α := 1

/-- The method `publish_topic(sensor_id)`; `clock1` and `clock2` are the values of the
first and of the second `ros::Time::now()`. -/
def publish_topic {α : Type} [Field α] (cm : CMath α) (self : MyAhrsDriverForROS α)
    (_sensor_id : Int) (clock1 clock2 : ros.Time) : MyAhrsDriverForROS α :=
  let roll := self.sensor_data_.euler_angle.roll * convertor_d2r cm
  let pitch := -self.sensor_data_.euler_angle.pitch * convertor_d2r cm
  let yaw := -self.sensor_data_.euler_angle.yaw * convertor_d2r cm
  let orientation := tf.createQuaternionFromRPY cm roll pitch yaw
  let imu := self.sensor_data_.imu
  let now := clock1
  let imu_msg : sensor_msgs.Imu α :=
    { sensor_msgs.Imu.new with
      header := { std_msgs.Header.new with stamp := now, frame_id := "imu_base" }
      orientation :=
        { x := orientation.index 0
          y := orientation.index 1
          z := orientation.index 2
          w := orientation.index 3 }
      linear_acceleration :=
        { x := imu.ax * convertor_g2a
          y := imu.ay * convertor_g2a
          z := imu.az * convertor_g2a }
      angular_velocity :=
        { x := imu.gx * convertor_d2r cm
          y := imu.gy * convertor_d2r cm
          z := imu.gz * convertor_d2r cm } }
  let magnetic_msg : sensor_msgs.MagneticField α :=
    { sensor_msgs.MagneticField.new with
      header := { std_msgs.Header.new with stamp := now, frame_id := "imu_base" }
      magnetic_field :=
        { x := imu.mx * convertor_ut2t
          y := imu.mx * convertor_ut2t
          z := imu.mx * convertor_ut2t } }
  { self with
    stdout := self.stdout ++ "."
    imu_data_pub_ := self.imu_data_pub_ ++ [imu_msg]
    imu_mag_pub_ := self.imu_mag_pub_ ++ [magnetic_msg]
    broadcaster_ := self.broadcaster_ ++
      [{ rotation := tf.createQuaternionFromRPY cm roll pitch yaw
         origin := ⟨0.0, 0.0, 0.1⟩
         stamp_ := clock2
         frame_id_ := "imu_base"
         child_frame_id_ := "imu" }] }

/-- The callback `OnSensorData(sensor_id, data)`: store the sample, then publish it. -/
def OnSensorData {α : Type} [Field α] (cm : CMath α) (self : MyAhrsDriverForROS α)
    (sensor_id : Int) (data : WithRobot.SensorData α) (clock1 clock2 : ros.Time) :
    MyAhrsDriverForROS α :=
  publish_topic cm { self with sensor_data_ := data } sensor_id clock1 clock2

end MyAhrsDriverForROS

/-! ## The device session initialiser -/

/-- The four member functions of the SDK base class `iMyAhrsPlus` that the initialiser
calls.  The class is declared in `myahrs_plus.hpp`, which is not among the sources, so
the four are taken as parameters: each acts on the SDK state `σ` and reports success. -/
structure iMyAhrsPlus (σ : Type) where
  start : σ → Bool × σ
  cmd_binary_data_format : String → σ → Bool × σ
  cmd_divider : String → σ → Bool × σ
  cmd_mode : String → σ → Bool × σ

/-- The method `initialize()`: the `do { ... } while(0)` block is left by `break` at the
first call that returns `false`; `ok` becomes `true` only past the fourth call. -/
def MyAhrsDriverForROS.initialize {σ : Type} (sdk : iMyAhrsPlus σ) (s0 : σ) : Bool × σ :=
  let ok := false
  let (r1, s1) := sdk.start s0
  if r1 == false then (ok, s1) else
  let (r2, s2) := sdk.cmd_binary_data_format "EULER, IMU" s1
  if r2 == false then (ok, s2) else
  let (r3, s3) := sdk.cmd_divider "1" s2
  if r3 == false then (ok, s3) else
  let (r4, s4) := sdk.cmd_mode "BC" s3
  if r4 == false then (ok, s4) else
  let ok := true
  (ok, s4)

/-- A call issued to the SDK, with its argument. -/
inductive Step where
  | start
  | cmd_binary_data_format (data_format : String)
  | cmd_divider (divider : String)
  | cmd_mode (mode : String)
  deriving DecidableEq, Repr

/-- A device whose state is the log of the calls issued to it so far and which answers
`start`, `cmd_binary_data_format`, `cmd_divider`, `cmd_mode` with the four given outcomes. -/
def recorder (o_start o_format o_divider o_mode : Bool) : iMyAhrsPlus (List Step) where
  start log := (o_start, log ++ [Step.start])
  cmd_binary_data_format a log := (o_format, log ++ [Step.cmd_binary_data_format a])
  cmd_divider a log := (o_divider, log ++ [Step.cmd_divider a])
  cmd_mode a log := (o_mode, log ++ [Step.cmd_mode a])

/-- The steps of a script, each paired with its outcome, up to and including the first
one whose outcome is `false`. -/
def throughFirstFailure : List (Step × Bool) → List Step
  | [] => []
  | (s, true) :: rest => s :: throughFirstFailure rest
  | (s, false) :: _ => [s]

/-! ## The standard transform, for comparison -/

/-- The rotation by the angle `θ` about the x axis, as the Hamilton quaternion
`cos (θ/2) + sin (θ/2) i`. -/
def aboutX {α : Type} [Field α] (cm : CMath α) (θ : α) : Quaternion α :=
  ⟨cm.cos (θ / 2), cm.sin (θ / 2), 0, 0⟩

/-- The rotation by the angle `θ` about the y axis: `cos (θ/2) + sin (θ/2) j`. -/
def aboutY {α : Type} [Field α] (cm : CMath α) (θ : α) : Quaternion α :=
  ⟨cm.cos (θ / 2), 0, cm.sin (θ / 2), 0⟩

/-- The rotation by the angle `θ` about the z axis: `cos (θ/2) + sin (θ/2) k`. -/
def aboutZ {α : Type} [Field α] (cm : CMath α) (θ : α) : Quaternion α :=
  ⟨cm.cos (θ / 2), 0, 0, cm.sin (θ / 2)⟩

/-- The standard roll-pitch-yaw rotation, composed from the three axis rotations: the
rotation by `roll` about x is applied first, then the one by `pitch` about the fixed y,
then the one by `yaw` about the fixed z. -/
def standardRPY {α : Type} [Field α] (cm : CMath α) (roll pitch yaw : α) : Quaternion α :=
  aboutZ cm yaw * aboutY cm pitch * aboutX cm roll

/-- A message quaternion `(x, y, z, w)` as the Hamilton quaternion `w + x i + y j + z k`. -/
def toHamilton {α : Type} [Field α] (q : geometry_msgs.Quaternion α) : Quaternion α :=
  ⟨q.w, q.x, q.y, q.z⟩

/-! ## Theorems -/

section Theorems

open MyAhrsDriverForROS

/-- The three half-angle products of `tf.createQuaternionFromRPY` have squares summing to
the product of the three `sin² + cos²` factors. -/
lemma sum_sq_half_angle_products {α : Type} [CommRing α] (sr cr sp cp sy cy : α) :
    (sr * cp * cy - cr * sp * sy) ^ 2 + (cr * sp * cy + sr * cp * sy) ^ 2
        + (cr * cp * sy - sr * sp * cy) ^ 2 + (cr * cp * cy + sr * sp * sy) ^ 2
      = (sr ^ 2 + cr ^ 2) * (sp ^ 2 + cp ^ 2) * (sy ^ 2 + cy ^ 2) := by
  ring

/-- C1: over the reals, the orientation of the inertial message published for a delivered
sample is the standard roll-pitch-yaw rotation of `(roll*π/180, -pitch*π/180, -yaw*π/180)`;
and for roll = 90, pitch = 0, yaw = 0 it is `(sin (π/4), 0, 0, cos (π/4))`, the quarter turn
about the x axis. -/
theorem orientation_is_standard_transform :
    (∀ (d : MyAhrsDriverForROS ℝ) (sensor_id : Int) (data : WithRobot.SensorData ℝ)
        (clock1 clock2 : ros.Time),
      ∃ m : sensor_msgs.Imu ℝ,
        (OnSensorData ⟨Real.pi, Real.sin, Real.cos⟩ d sensor_id data clock1 clock2).imu_data_pub_
            = d.imu_data_pub_ ++ [m]
        ∧ toHamilton m.orientation
            = standardRPY ⟨Real.pi, Real.sin, Real.cos⟩
                (data.euler_angle.roll * Real.pi / 180)
                (-data.euler_angle.pitch * Real.pi / 180)
                (-data.euler_angle.yaw * Real.pi / 180))
    ∧ (∀ (d : MyAhrsDriverForROS ℝ) (sensor_id : Int) (imu : WithRobot.ImuData ℝ)
        (clock1 clock2 : ros.Time),
      ∃ m : sensor_msgs.Imu ℝ,
        (OnSensorData ⟨Real.pi, Real.sin, Real.cos⟩ d sensor_id
              { euler_angle := ⟨90, 0, 0⟩, imu := imu } clock1 clock2).imu_data_pub_
            = d.imu_data_pub_ ++ [m]
        ∧ m.orientation = ⟨Real.sin (Real.pi / 4), 0, 0, Real.cos (Real.pi / 4)⟩) := by
  constructor
  · intro d sensor_id data clock1 clock2
    refine ⟨_, rfl, ?_⟩
    have e1 : data.euler_angle.roll * (Real.pi / 180.0) * 0.5
        = data.euler_angle.roll * Real.pi / 180 / 2 := by norm_num; ring
    have e2 : -data.euler_angle.pitch * (Real.pi / 180.0) * 0.5
        = -data.euler_angle.pitch * Real.pi / 180 / 2 := by norm_num; ring
    have e3 : -data.euler_angle.yaw * (Real.pi / 180.0) * 0.5
        = -data.euler_angle.yaw * Real.pi / 180 / 2 := by norm_num; ring
    apply Quaternion.ext <;>
      simp only [toHamilton, standardRPY, aboutX, aboutY, aboutZ,
        tf.createQuaternionFromRPY, tf.Quaternion.index, convertor_d2r, Quaternion.mul_re,
        Quaternion.mul_imI, Quaternion.mul_imJ, Quaternion.mul_imK, e1, e2, e3] <;>
      ring
  · intro d sensor_id imu clock1 clock2
    refine ⟨_, rfl, ?_⟩
    have e1 : (90 : ℝ) * (Real.pi / 180.0) * 0.5 = Real.pi / 4 := by norm_num; ring
    simp [tf.createQuaternionFromRPY, tf.Quaternion.index, convertor_d2r, e1]

/-- C2 (the code at the failing input): over the reals `convertor_ut2t` is `0`, so the
sample with magnetic field `(2, 5, 9)` microtesla is published with magnetic field
`(0, 0, 0)`, whose x component is not `2 / 1000000`. -/
theorem magnetic_field_scale_truncates_to_zero :
    (convertor_ut2t : ℝ) = 0
    ∧ ∀ (d : MyAhrsDriverForROS ℝ) (sensor_id : Int) (e : WithRobot.EulerAngle ℝ)
        (ax ay az gx gy gz : ℝ) (clock1 clock2 : ros.Time),
      ∃ m : sensor_msgs.MagneticField ℝ,
        (OnSensorData ⟨Real.pi, Real.sin, Real.cos⟩ d sensor_id
            { euler_angle := e, imu := ⟨ax, ay, az, gx, gy, gz, 2.0, 5.0, 9.0⟩ }
            clock1 clock2).imu_mag_pub_
          = d.imu_mag_pub_ ++ [m]
        ∧ m.magnetic_field = ⟨0, 0, 0⟩
        ∧ m.magnetic_field.x ≠ 2 / 1000000 := by
  have h0 : (convertor_ut2t : ℝ) = 0 := by
    have : Int.tdiv 1 1000000 = 0 := by decide
    simp [convertor_ut2t, this]
  refine ⟨h0, ?_⟩
  intro d sensor_id e ax ay az gx gy gz clock1 clock2
  refine ⟨_, rfl, ?_, ?_⟩
  · simp [h0]
  · simp only [h0, mul_zero]
    norm_num

/-- C3: the three axes of the published magnetic field are all the input x axis times
`convertor_ut2t`, hence equal to one another, and replacing `my` and `mz` in the sample
leaves the published magnetic field messages unchanged. -/
theorem magnetic_field_reads_x_only {α : Type} [Field α] (cm : CMath α)
    (d : MyAhrsDriverForROS α) (sensor_id : Int) (data : WithRobot.SensorData α)
    (clock1 clock2 : ros.Time) :
    (∃ m : sensor_msgs.MagneticField α,
        (OnSensorData cm d sensor_id data clock1 clock2).imu_mag_pub_ = d.imu_mag_pub_ ++ [m]
        ∧ m.magnetic_field.x = data.imu.mx * convertor_ut2t
        ∧ m.magnetic_field.y = data.imu.mx * convertor_ut2t
        ∧ m.magnetic_field.z = data.imu.mx * convertor_ut2t
        ∧ m.magnetic_field.x = m.magnetic_field.y
        ∧ m.magnetic_field.y = m.magnetic_field.z)
    ∧ ∀ my mz : α,
        (OnSensorData cm d sensor_id { data with imu := { data.imu with my := my, mz := mz } }
            clock1 clock2).imu_mag_pub_
          = (OnSensorData cm d sensor_id data clock1 clock2).imu_mag_pub_ := by
  refine ⟨⟨_, rfl, rfl, rfl, rfl, rfl, rfl⟩, ?_⟩
  intro my mz
  rfl

/-- C4: the linear acceleration of the inertial message published for a delivered sample
is `(ax * 9.80665, ay * 9.80665, az * 9.80665)`. -/
theorem linear_acceleration_scaled_by_gravity (d : MyAhrsDriverForROS ℝ) (sensor_id : Int)
    (data : WithRobot.SensorData ℝ) (clock1 clock2 : ros.Time) :
    ∃ m : sensor_msgs.Imu ℝ,
      (OnSensorData ⟨Real.pi, Real.sin, Real.cos⟩ d sensor_id data clock1 clock2).imu_data_pub_
        = d.imu_data_pub_ ++ [m]
      ∧ m.linear_acceleration
        = ⟨data.imu.ax * 9.80665, data.imu.ay * 9.80665, data.imu.az * 9.80665⟩ := by
  exact ⟨_, rfl, rfl⟩

/-- C5: the angular velocity of the inertial message published for a delivered sample is
`(gx * π / 180, gy * π / 180, gz * π / 180)`: own axis, no sign change. -/
theorem angular_velocity_scaled_to_radians (d : MyAhrsDriverForROS ℝ) (sensor_id : Int)
    (data : WithRobot.SensorData ℝ) (clock1 clock2 : ros.Time) :
    ∃ m : sensor_msgs.Imu ℝ,
      (OnSensorData ⟨Real.pi, Real.sin, Real.cos⟩ d sensor_id data clock1 clock2).imu_data_pub_
        = d.imu_data_pub_ ++ [m]
      ∧ m.angular_velocity
        = ⟨data.imu.gx * Real.pi / 180, data.imu.gy * Real.pi / 180,
            data.imu.gz * Real.pi / 180⟩ := by
  refine ⟨_, rfl, ?_⟩
  have e : ∀ g : ℝ, g * (Real.pi / 180.0) = g * Real.pi / 180 := by
    intro g; norm_num; ring
  simp only [convertor_d2r, e]

/-- C6: over the reals the orientation quaternion of the inertial message published for a
delivered sample has unit norm, `x² + y² + z² + w² = 1`. -/
theorem orientation_has_unit_norm (d : MyAhrsDriverForROS ℝ) (sensor_id : Int)
    (data : WithRobot.SensorData ℝ) (clock1 clock2 : ros.Time) :
    ∃ m : sensor_msgs.Imu ℝ,
      (OnSensorData ⟨Real.pi, Real.sin, Real.cos⟩ d sensor_id data clock1 clock2).imu_data_pub_
        = d.imu_data_pub_ ++ [m]
      ∧ m.orientation.x ^ 2 + m.orientation.y ^ 2 + m.orientation.z ^ 2 + m.orientation.w ^ 2
        = 1 := by
  refine ⟨_, rfl, ?_⟩
  simp only [tf.createQuaternionFromRPY, tf.Quaternion.index]
  rw [sum_sq_half_angle_products]
  simp only [Real.sin_sq_add_cos_sq, mul_one]

/-- C7: against a device that records the calls issued to it, `initialize()` issues
`start()`, `cmd_binary_data_format("EULER, IMU")`, `cmd_divider("1")`, `cmd_mode("BC")` in
this order up to and including the first one that fails, and returns `true` exactly when
all four outcomes are `true`. -/
theorem initialize_short_circuits (o_start o_format o_divider o_mode : Bool)
    (log : List Step) :
    MyAhrsDriverForROS.initialize (recorder o_start o_format o_divider o_mode) log
      = (o_start && o_format && o_divider && o_mode,
         log ++ throughFirstFailure
           [(Step.start, o_start), (Step.cmd_binary_data_format "EULER, IMU", o_format),
            (Step.cmd_divider "1", o_divider), (Step.cmd_mode "BC", o_mode)]) := by
  cases o_start <;> cases o_format <;> cases o_divider <;> cases o_mode <;>
    simp [ MyAhrsDriverForROS.initialize, recorder, throughFirstFailure]

/-- C8: whatever the configured `frame_id`, the inertial message and the magnetic field
message published for a delivered sample both carry the frame identifier `"imu_base"` and
the same timestamp. -/
theorem frame_id_fixed_and_stamps_agree {α : Type} [Field α] (cm : CMath α)
    (d : MyAhrsDriverForROS α) (frame_id : String) (sensor_id : Int)
    (data : WithRobot.SensorData α) (clock1 clock2 : ros.Time) :
    ∃ (im : sensor_msgs.Imu α) (mm : sensor_msgs.MagneticField α),
      (OnSensorData cm { d with frame_id_ := frame_id } sensor_id data clock1 clock2).imu_data_pub_
        = d.imu_data_pub_ ++ [im]
      ∧ (OnSensorData cm { d with frame_id_ := frame_id } sensor_id data clock1 clock2).imu_mag_pub_
        = d.imu_mag_pub_ ++ [mm]
      ∧ im.header.frame_id = "imu_base"
      ∧ mm.header.frame_id = "imu_base"
      ∧ im.header.stamp = mm.header.stamp := by
  exact ⟨_, _, rfl, rfl, rfl, rfl, rfl⟩

/-- C9: a delivered sample adds exactly one transform to the broadcaster; it has translation
`(0, 0, 0.1)`, parent frame `"imu_base"`, child frame `"imu"`, and its rotation has the
components of the orientation of the inertial message published for the same sample. -/
theorem one_transform_per_sample {α : Type} [Field α] (cm : CMath α)
    (d : MyAhrsDriverForROS α) (sensor_id : Int) (data : WithRobot.SensorData α)
    (clock1 clock2 : ros.Time) :
    ∃ (t : tf.StampedTransform α) (im : sensor_msgs.Imu α),
      (OnSensorData cm d sensor_id data clock1 clock2).broadcaster_ = d.broadcaster_ ++ [t]
      ∧ (OnSensorData cm d sensor_id data clock1 clock2).imu_data_pub_ = d.imu_data_pub_ ++ [im]
      ∧ t.origin = ⟨0, 0, 0.1⟩
      ∧ t.frame_id_ = "imu_base"
      ∧ t.child_frame_id_ = "imu"
      ∧ t.rotation.x = im.orientation.x
      ∧ t.rotation.y = im.orientation.y
      ∧ t.rotation.z = im.orientation.z
      ∧ t.rotation.w = im.orientation.w := by
  refine ⟨_, _, rfl, rfl, ?_, rfl, rfl, rfl, rfl, rfl, rfl⟩
  have z : (0.0 : α) = 0 := by norm_num
  simp only [z]

/-- C10: the messages and the transform published for a delivered sample are the same
whatever the values of the members `autocalibrate_` and the four `*_stddev_`; and a driver
built by the constructor publishes the same whatever the parameter store holds. -/
theorem outputs_ignore_noise_options {α : Type} [Field α] (cm : CMath α)
    (sensor_id : Int) (data : WithRobot.SensorData α) (clock1 clock2 : ros.Time)
    (autocalibrate : Bool) (la av mf ori : α) :
    (∀ d : MyAhrsDriverForROS α,
      (OnSensorData cm
          { d with
            autocalibrate_ := autocalibrate, linear_acceleration_stddev_ := la,
            angular_velocity_stddev_ := av, magnetic_field_stddev_ := mf,
            orientation_stddev_ := ori }
          sensor_id data clock1 clock2).imu_data_pub_
        = (OnSensorData cm d sensor_id data clock1 clock2).imu_data_pub_
      ∧ (OnSensorData cm
          { d with
            autocalibrate_ := autocalibrate, linear_acceleration_stddev_ := la,
            angular_velocity_stddev_ := av, magnetic_field_stddev_ := mf,
            orientation_stddev_ := ori }
          sensor_id data clock1 clock2).imu_mag_pub_
        = (OnSensorData cm d sensor_id data clock1 clock2).imu_mag_pub_
      ∧ (OnSensorData cm
          { d with
            autocalibrate_ := autocalibrate, linear_acceleration_stddev_ := la,
            angular_velocity_stddev_ := av, magnetic_field_stddev_ := mf,
            orientation_stddev_ := ori }
          sensor_id data clock1 clock2).broadcaster_
        = (OnSensorData cm d sensor_id data clock1 clock2).broadcaster_)
    ∧ ∀ (p q : ParamStore α) (s0 : WithRobot.SensorData α),
      (OnSensorData cm (MyAhrsDriverForROS.new p s0) sensor_id data clock1 clock2).imu_data_pub_
        = (OnSensorData cm (MyAhrsDriverForROS.new q s0) sensor_id data clock1 clock2).imu_data_pub_
      ∧ (OnSensorData cm (MyAhrsDriverForROS.new p s0) sensor_id data clock1 clock2).imu_mag_pub_
        = (OnSensorData cm (MyAhrsDriverForROS.new q s0) sensor_id data clock1 clock2).imu_mag_pub_
      ∧ (OnSensorData cm (MyAhrsDriverForROS.new p s0) sensor_id data clock1 clock2).broadcaster_
        = (OnSensorData cm (MyAhrsDriverForROS.new q s0) sensor_id data clock1 clock2).broadcaster_ := by
  refine ⟨fun d => ⟨rfl, rfl, rfl⟩, fun p q s0 => ⟨rfl, rfl, rfl⟩⟩

end Theorems
